import Mathlib

/-!
Verification of the agent-runtime core of the Ai-Marketing-Team repository.

The development shallowly embeds the Python sources:
  * `src/core/crypto.py`     -- the `MilitaryCrypto` codec,
  * `src/agents/__init__.py` -- the `AgentRegistry`,
  * `src/agents/sentinel.py` -- the `SecuritySentinel` runtime with its
    threat-escalation engine, countermeasure set, cooperative monitoring
    schedule and task dispatch loop.

Conventions of the embedding:
  * Python numbers that take part in the threat-level arithmetic are modelled
    as exact rationals (the literals 0.05 and 0.1 are 1/20 and 1/10); Python
    `int()` on the nonnegative products that occur here is truncation,
    `pyInt`.
  * The global `logger` is a log field of the state; external probe and
    subprocess calls (psutil, netsh) are out of scope per the spec and show
    up only as their log lines.
  * Fallible Python code is `Except PyError`; an uncaught exception is an
    `.error` value.
-/

deriving instance DecidableEq for Except

namespace AiMkt

/-- Exact rational addition, written through `mkRat` so that the kernel can
evaluate it (the library's `Rat.add` is deliberately opaque); proved equal
to `+` below. -/
def qAdd (a b : ℚ) : ℚ :=
  mkRat (a.num * b.den + b.num * a.den) (a.den * b.den)

/-- Exact rational multiplication through `mkRat`; proved equal to `*`
below. -/
def qMul (a b : ℚ) : ℚ :=
  mkRat (a.num * b.num) (a.den * b.den)

/-- Exact rational subtraction; proved equal to `-` below. -/
def qSub (a b : ℚ) : ℚ :=
  qAdd a (-b)

/-- Python's builtin `min` on two rationals (ties keep the first argument;
the values coincide anyway). Written out so that the kernel can evaluate
it. -/
def ratMin (a b : ℚ) : ℚ :=
  if a ≤ b then a else b

/-- Python's builtin `max` on two rationals. -/
def ratMax (a b : ℚ) : ℚ :=
  if a ≤ b then b else a

/-- Python's builtin `max` on two integers. -/
def intMax (a b : ℤ) : ℤ :=
  if a ≤ b then b else a

/-- Python-level exceptions that the embedded code can raise. -/
inductive PyError where
  | nameError (missing : String)
  | keyError
  | decryptionError
  | valueError
  | securityError
deriving DecidableEq

/-- Modelled from the spec: the Fernet cipher of the third-party
`cryptography` package is not part of the repository. Per the Crypto Codec
contract (spec section 4.1) a ciphertext decrypts to its plaintext exactly
under the key that produced it, and decryption of a malformed blob or of a
token produced under a different key fails. `junk` stands for a byte blob
that was never produced by `encrypt`. -/
inductive FernetToken where
  | token (keyId : Nat) (plain : String)
  | junk (raw : String)
deriving DecidableEq

def fernet_encrypt (keyId : Nat) (data : String) : FernetToken :=
  .token keyId data

def fernet_decrypt (keyId : Nat) : FernetToken → Except PyError String
  | .token k s => if k = keyId then .ok s else .error .decryptionError
  | .junk _ => .error .decryptionError

/-- `MilitaryCrypto.__init__` (src/core/crypto.py): holds one fixed key. -/
structure MilitaryCrypto where
  key : Nat
deriving DecidableEq

/-- `MilitaryCrypto.encrypt`: encrypt under the instance key. The
`encode`/`decode` byte-vs-str shuffling is representation only and is
collapsed by the embedding. -/
def MilitaryCrypto.encrypt (c : MilitaryCrypto) (data : String) : FernetToken :=
  fernet_encrypt c.key data

/-- `MilitaryCrypto.decrypt`: Fernet decryption under the instance key;
raises (`InvalidToken`, the spec's `DecryptionError`) on a malformed or
foreign ciphertext. -/
def MilitaryCrypto.decrypt (c : MilitaryCrypto) (encrypted_data : FernetToken) :
    Except PyError String :=
  fernet_decrypt c.key encrypted_data

/-- The names importable at module level in src/core/crypto.py, from its
three import statements (cryptography.fernet's Fernet, hashlib, os) plus the
class the module defines. `json` is NOT among them. -/
def cryptoModuleGlobals : List String :=
  ["Fernet", "hashlib", "os", "MilitaryCrypto"]

/-- Python name resolution against the module globals of crypto.py: an
unknown name raises `NameError`. -/
def resolveGlobal (n : String) : Except PyError Unit :=
  if n ∈ cryptoModuleGlobals then .ok () else .error (.nameError n)

/-- Modelled from the spec: `hashlib.sha256(...).hexdigest()` is stdlib, not
repository code; the spec only requires a deterministic fixed-length digest
(section 4.1), and no claim depends on its value. -/
def sha256hex (s : String) : String :=
  toString (s.data.foldl (fun a c => (a * 131 + c.toNat) % 4294967296) 7)

/-- `MilitaryCrypto.hash_data`: truncated hex digest; its only module-global
reference, `hashlib`, resolves. -/
def MilitaryCrypto.hash_data (_c : MilitaryCrypto) (data : String) :
    Except PyError String := do
  resolveGlobal "hashlib"
  .ok ((sha256hex data).take 12)

/-- The record `secure_comms` is written to build. -/
structure SecureMessage where
  sender : String
  receiver : String
  payload : FernetToken
deriving DecidableEq

/-- `MilitaryCrypto.secure_comms`: its body evaluates `json.dumps(message)`
first, and the name `json` does not resolve in crypto.py, so a `NameError`
is raised before anything else runs. The `.ok` branch is unreachable;
`message` stands for the serialized text (`json.dumps` being stdlib,
modelled from the spec's envelope description). -/
def MilitaryCrypto.secure_comms (c : MilitaryCrypto)
    (sender receiver message : String) : Except PyError SecureMessage := do
  resolveGlobal "json"
  .ok { sender := sender, receiver := receiver, payload := c.encrypt message }

/-- Structural capability probe of `AgentRegistry._validate_agent_security`
(src/agents/__init__.py): the three `hasattr` checks, recorded as what each
probe found on the object. -/
structure AgentCaps where
  hasCrypto : Bool
  hasSecureComms : Bool
  hasThreatMonitor : Bool
deriving DecidableEq

/-- `AgentRegistry._validate_agent_security`: all three probes must hold. -/
def validate_agent_security (a : AgentCaps) : Bool :=
  a.hasCrypto && a.hasSecureComms && a.hasThreatMonitor

/-- The registry dict `AgentRegistry._agents`; assignment overwrites, which
the cons-then-first-match representation reproduces. -/
abbrev Registry := List (String × AgentCaps)

/-- `AgentRegistry.register_agent`: raises `SecurityError` when validation
fails, otherwise stores the instance under the identifier. -/
def register_agent (reg : Registry) (agentType : String) (a : AgentCaps) :
    Except PyError Registry :=
  if validate_agent_security a then .ok ((agentType, a) :: reg)
  else .error .securityError

/-- `AgentRegistry.get_agent`: raises `ValueError` when the identifier is
not registered. -/
def get_agent (reg : Registry) (agentType : String) : Except PyError AgentCaps :=
  match List.find? (fun e => e.1 == agentType) reg with
  | some e => .ok e.2
  | none => .error .valueError

/-- The four monitoring categories of the sentinel. -/
inductive MCat where
  | network
  | process
  | performance
  | integrity
deriving DecidableEq

/-- One recurring job in the `schedule` table: the interval it was
registered with and the monitoring callback it drives. -/
structure Job where
  category : MCat
  interval : ℤ
deriving DecidableEq

/-- The `monitoring_intervals` dict. -/
structure MonIntervals where
  network : ℤ
  process : ℤ
  performance : ℤ
  integrity : ℤ
deriving DecidableEq

/-- The `threat` sub-dict of a threat_alert task; a missing key is `none`. -/
structure ThreatInfo where
  description : Option String := none
  severity : Option ℤ := none
deriving DecidableEq

/-- A Python task dict as the sentinel reads it: each field is the value
under the corresponding key, `none` when the key is absent.  `hasEncrypted`
records presence of the key `'encrypted'` (the code only tests
`'encrypted' in task`). -/
structure PyTask where
  hasEncrypted : Bool := false
  payload : Option FernetToken := none
  ttype : Option String := none
  threat : Option ThreatInfo := none
  entries : Option (List (String × List String)) := none
  errorTag : Option String := none
deriving DecidableEq

/-- The whitelist dict: its two fixed categories. -/
structure Whitelist where
  connections : List String
  processes : List String
deriving DecidableEq

/-- External monitoring snapshot consumed by `_full_system_scan`: the number
of threats each probe reported (the probes themselves are psutil/glob calls,
out of scope per the spec). -/
structure ScanEnv where
  network : ℕ
  process : ℕ
  filesystem : ℕ
  performance : ℕ
deriving DecidableEq

/-- The mutable state of one `SecuritySentinel` instance. -/
structure SentinelState where
  cryptoKey : Nat
  threatLevel : ℚ
  activeCountermeasures : List String
  monitoringIntervals : MonIntervals
  jobs : List Job
  whitelist : Whitelist
  running : Bool
  queue : List PyTask
  log : List String
deriving DecidableEq

/-- The global `logger`, as a log line appended to the state. -/
def pushLog (st : SentinelState) (m : String) : SentinelState :=
  { st with log := st.log ++ [m] }

/-- `_send_results`: builds and encrypts a report but, in the source, only
logs `Sent {message_type} to {recipient}` ("In production, would use message
broker"). -/
def send_results (st : SentinelState) (messageType : String) : SentinelState :=
  pushLog st ("Sent " ++ messageType)

/-- Python `int()` on a rational: truncation toward zero (all uses here are
on nonnegative values). -/
def pyInt (q : ℚ) : ℤ :=
  Int.tdiv q.num (q.den : ℤ)

/-- `_init_monitoring`: register one recurring job per category at the
current `monitoring_intervals`. -/
def init_monitoring (st : SentinelState) : SentinelState :=
  { st with jobs := st.jobs ++
      [ { category := .network, interval := st.monitoringIntervals.network },
        { category := .process, interval := st.monitoringIntervals.process },
        { category := .performance, interval := st.monitoringIntervals.performance },
        { category := .integrity, interval := st.monitoringIntervals.integrity } ] }

/-- `_adjust_monitoring`: recompute every interval from the fixed base dict
{5, 10, 15, 30} with `max(1, int(v * max(0.1, 1 - level*0.05)))`, then
`schedule.clear()` and `_init_monitoring()`. -/
def adjust_monitoring (st : SentinelState) : SentinelState :=
  let multiplier : ℚ := ratMax (mkRat 1 10) (qSub 1 (qMul st.threatLevel (mkRat 1 20)))
  init_monitoring
    { st with
      monitoringIntervals :=
        { network := intMax 1 (pyInt (qMul 5 multiplier)),
          process := intMax 1 (pyInt (qMul 10 multiplier)),
          performance := intMax 1 (pyInt (qMul 15 multiplier)),
          integrity := intMax 1 (pyInt (qMul 30 multiplier)) },
      jobs := [] }

/-- `_update_threat_level`: `new_level = min(10, level + increment)`; only
when the level actually changed, log it and `_adjust_monitoring()`. There is
no lower clamp in the source. -/
def update_threat_level (st : SentinelState) (increment : ℚ) : SentinelState :=
  let newLevel := ratMin 10 (qAdd st.threatLevel increment)
  if newLevel ≠ st.threatLevel then
    adjust_monitoring (pushLog { st with threatLevel := newLevel } "Threat level changed")
  else st

/-- `_enhance_monitoring`: overwrite the interval dict with {1, 2, 5, 10},
then `_adjust_monitoring()` (which recomputes from the base dict), then
log. -/
def enhance_monitoring (st : SentinelState) : SentinelState :=
  pushLog
    (adjust_monitoring
      { st with monitoringIntervals :=
          { network := 1, process := 2, performance := 5, integrity := 10 } })
    "Enhanced monitoring activated"

/-- The per-measure side effects inside `_activate_countermeasures`; network
isolation and process suspension act on the host (out of scope) and reduce
to their log lines. -/
def measure_effect (st : SentinelState) (measure : String) : SentinelState :=
  if measure = "isolate_network" then pushLog st "Network isolation attempted"
  else if measure = "suspend_non_critical" then pushLog st "Suspended non-critical processes"
  else if measure = "enhanced_monitoring" then enhance_monitoring st
  else if measure = "process_restrictions" then pushLog st "Process creation restrictions enabled"
  else st

/-- One iteration of the `for measure in measures` loop of
`_activate_countermeasures`; the boolean tracks `activated != []`. -/
def apply_measure (p : SentinelState × Bool) (measure : String) : SentinelState × Bool :=
  if measure ∈ p.1.activeCountermeasures then p
  else
    (measure_effect
        { p.1 with activeCountermeasures := p.1.activeCountermeasures ++ [measure] }
        measure,
      true)

/-- `_activate_countermeasures`: add each not-yet-active measure (with its
side effect), then log once if anything was activated. -/
def activate_countermeasures (st : SentinelState) (measures : List String) : SentinelState :=
  let p := measures.foldl apply_measure (st, false)
  if p.2 then pushLog p.1 "Activated countermeasures" else p.1

/-- The per-measure side effects inside `_activate_lockdown` (only the three
listed measures have one there). -/
def lockdown_effect (st : SentinelState) (measure : String) : SentinelState :=
  if measure = "freeze_assets" then pushLog st "Content assets frozen"
  else if measure = "enable_logging" then pushLog st "Enhanced logging activated"
  else if measure = "backup_critical" then pushLog st "Critical data backup initiated"
  else st

/-- One iteration of the measure loop of `_activate_lockdown`. -/
def apply_lockdown_measure (st : SentinelState) (measure : String) : SentinelState :=
  if measure ∈ st.activeCountermeasures then st
  else
    lockdown_effect
      { st with activeCountermeasures := st.activeCountermeasures ++ [measure] }
      measure

/-- The fixed lockdown measure list of `_activate_lockdown`. Note that the
tag `lockdown` itself is not in it. -/
def lockdownMeasures : List String :=
  ["isolate_network", "suspend_non_critical", "freeze_assets", "enable_logging",
    "backup_critical"]

/-- `_activate_lockdown`: a no-op when `lockdown` is already active;
otherwise log, add every missing lockdown measure, and notify the
commander. -/
def activate_lockdown (st : SentinelState) : SentinelState :=
  if "lockdown" ∈ st.activeCountermeasures then st
  else
    send_results
      (lockdownMeasures.foldl apply_lockdown_measure
        (pushLog st "ACTIVATING LOCKDOWN PROTOCOL"))
      "lockdown_activated"

/-- `_handle_threat_alert`: log the alert (a missing `threat` dict or
`description` key raises `KeyError`), raise the level by the alert severity
(default 1), then pick countermeasures from the RESULTING level with
thresholds 7 and 4. -/
def handle_threat_alert (st : SentinelState) (t : PyTask) :
    Except PyError SentinelState :=
  match t.threat with
  | none => .error .keyError
  | some th =>
    match th.description with
    | none => .error .keyError
    | some desc =>
      let st1 := pushLog st ("Processing threat alert: " ++ desc)
      let st2 := update_threat_level st1 ((th.severity.getD 1 : ℤ) : ℚ)
      if 7 ≤ st2.threatLevel then .ok (activate_lockdown st2)
      else if 4 ≤ st2.threatLevel then
        .ok (activate_countermeasures st2 ["isolate_network", "suspend_non_critical"])
      else .ok st2

/-- `_handle_suspicious_activity`: log, raise the level by the severity,
then pick countermeasures from the SEVERITY argument (not the level) with
thresholds 8 and 5, and notify the commander. -/
def handle_suspicious_activity (st : SentinelState) (category description : String)
    (severity : ℚ) : SentinelState :=
  let st1 := pushLog st (category ++ " ALERT: " ++ description)
  let st2 := update_threat_level st1 severity
  let st3 :=
    if 8 ≤ severity then activate_lockdown st2
    else if 5 ≤ severity then
      activate_countermeasures st2 ["enhanced_monitoring", "process_restrictions"]
    else st2
  send_results st3 "security_alert"

/-- `_full_system_scan`: the four probe scans report threat lists with fixed
severities 3, 4, 5 and 2; the combined score `sum(len*severity)/10` feeds
`_update_threat_level`, then the report is sent. -/
def full_system_scan (env : ScanEnv) (st : SentinelState) : SentinelState :=
  let st1 := pushLog st "Initiating full system scan"
  let score : ℚ :=
    mkRat (3 * env.network + 4 * env.process + 5 * env.filesystem
        + 2 * env.performance : ℕ) 10
  send_results (update_threat_level st1 score) "security_scan_report"

/-- One iteration of the `for category, items` loop of `_update_whitelist`:
only the two existing whitelist categories are extended. -/
def extend_whitelist (wl : Whitelist) (e : String × List String) : Whitelist :=
  if e.1 = "connections" then { wl with connections := wl.connections ++ e.2 }
  else if e.1 = "processes" then { wl with processes := wl.processes ++ e.2 }
  else wl

/-- `_update_whitelist`: a missing `entries` key raises `KeyError`;
otherwise extend and log. -/
def update_whitelist (st : SentinelState) (t : PyTask) :
    Except PyError SentinelState :=
  match t.entries with
  | none => .error .keyError
  | some es =>
    .ok (pushLog { st with whitelist := es.foldl extend_whitelist st.whitelist }
      "Whitelist updated")

/-- Modelled from the spec: `json.loads` is stdlib, not repository code. We
parse the flat, versionless envelope of spec section 6 from a
semicolon-separated `key=value` rendering of the fields the sentinel reads,
and reject anything else (`json.loads` raises on malformed input). -/
def parse_task_line (t : PyTask) (line : String) : Except PyError PyTask :=
  match line.splitOn "=" with
  | ["type", v] => .ok { t with ttype := some v }
  | ["description", v] =>
    .ok { t with threat := some { (t.threat.getD {}) with description := some v } }
  | ["severity", v] =>
    match v.toInt? with
    | some n => .ok { t with threat := some { (t.threat.getD {}) with severity := some n } }
    | none => .error .valueError
  | _ => .error .valueError

def json_loads (s : String) : Except PyError PyTask :=
  (s.splitOn ";").foldlM parse_task_line {}

/-- The body of the `try` block of `_decrypt_task`: read the `payload` key
(KeyError when absent), Fernet-decrypt it, parse the plaintext. -/
def decrypt_task_raw (key : Nat) (t : PyTask) : Except PyError PyTask :=
  match t.payload with
  | none => .error .keyError
  | some tok => do
    let s ← fernet_decrypt key tok
    json_loads s

/-- The `{'error': 'decryption_failed'}` marker dict. -/
def decryptionFailedMarker : PyTask :=
  { errorTag := some "decryption_failed" }

/-- `_decrypt_task`: every exception of the body is caught, logged, and
replaced by the marker task. -/
def decrypt_task (st : SentinelState) (t : PyTask) : SentinelState × PyTask :=
  match decrypt_task_raw st.cryptoKey t with
  | .ok t2 => (st, t2)
  | .error _ => (pushLog st "Decryption failed", decryptionFailedMarker)

/-- The handler-table part of `_process_task`: dispatch on `task.get('type')`;
an unrecognized or missing type is logged and dropped. -/
def dispatch_task (env : ScanEnv) (p : SentinelState × PyTask) :
    Except PyError SentinelState :=
  match p.2.ttype with
  | some ty =>
    if ty = "security_scan" then .ok (full_system_scan env p.1)
    else if ty = "threat_alert" then handle_threat_alert p.1 p.2
    else if ty = "update_whitelist" then update_whitelist p.1 p.2
    else if ty = "lockdown" then .ok (activate_lockdown p.1)
    else .ok (pushLog p.1 "Unknown task type")
  | none => .ok (pushLog p.1 "Unknown task type")

/-- `_process_task`: decrypt first when the `'encrypted'` key is present,
then dispatch. -/
def process_task (env : ScanEnv) (st : SentinelState) (t : PyTask) :
    Except PyError SentinelState :=
  dispatch_task env (if t.hasEncrypted then decrypt_task st t else (st, t))

/-- The queue-draining part of the `run` worker loop over a batch of queued
tasks: an uncaught exception in `_process_task` escapes the loop and kills
the worker thread, so processing stops there. -/
def run_tasks (env : ScanEnv) : SentinelState → List PyTask → SentinelState
  | st, [] => st
  | st, t :: ts =>
    match process_task env st t with
    | .ok st2 => run_tasks env st2 ts
    | .error _ => st

/-- `receive_message`: the public interface; unconditionally enqueues, with
no check of the running flag. -/
def receive_message (st : SentinelState) (message : PyTask) : SentinelState :=
  { st with queue := st.queue ++ [message] }

/-- `shutdown`: clear the running flag, log, deactivate (empty) the
countermeasure set when nonempty, join the worker, log completion. -/
def shutdown (st : SentinelState) : SentinelState :=
  let st1 := pushLog { st with running := false } "Shutting down"
  let st2 :=
    if st1.activeCountermeasures ≠ [] then
      { (pushLog st1 "Deactivating countermeasures") with activeCountermeasures := [] }
    else st1
  pushLog st2 "Shutdown complete"

/-- `SecuritySentinel.__init__`: threat level 0, no countermeasures, the
base intervals, one monitoring job per category, the static whitelist. -/
def initial_sentinel (key : Nat) : SentinelState :=
  pushLog
    (init_monitoring
      { cryptoKey := key, threatLevel := 0, activeCountermeasures := [],
        monitoringIntervals := { network := 5, process := 10, performance := 15, integrity := 30 },
        jobs := [],
        whitelist := { connections := ["127.0.0.1", "api.openai.com"],
                       processes := ["python", "chrome", "svchost"] },
        running := true, queue := [], log := [] })
    "Initialized with threat level 0"

/-- A sequence of `_update_threat_level` calls. -/
def run_updates (st : SentinelState) (ds : List ℚ) : SentinelState :=
  ds.foldl update_threat_level st

/-- Appending the not-yet-present elements in order: the value of the
countermeasure-activating loops on the active list. -/
def addMissing (acc : List String) (ms : List String) : List String :=
  ms.foldl (fun a m => if m ∈ a then a else a ++ [m]) acc

/-- The interval formula exactly as claim C3 and spec section 4.6 state it,
over exact rationals, with NO integer truncation:
`max(1, base * max(0.1, 1 - level*0.05))`. Compared against the
implementation, which truncates with `int()`. -/
def specIntervalFormula (base lvl : ℚ) : ℚ :=
  ratMax 1 (qMul base (ratMax (mkRat 1 10) (qSub 1 (qMul lvl (mkRat 1 20)))))

/-- The interval computation the implementation performs (with the `int()`
truncation), named so theorems can state it per category. -/
def implIntervalFormula (base : ℚ) (lvl : ℚ) : ℤ :=
  intMax 1 (pyInt (qMul base (ratMax (mkRat 1 10) (qSub 1 (qMul lvl (mkRat 1 20))))))

/-- A well-formed threat_alert task dict. -/
def alertTask (desc : String) (sev : ℤ) : PyTask :=
  { ttype := some "threat_alert",
    threat := some { description := some desc, severity := some sev } }

/-- A quiet scan environment (no probe reports any threat). -/
def env0 : ScanEnv :=
  { network := 0, process := 0, filesystem := 0, performance := 0 }

/-- An inbound encrypted task whose payload is a malformed blob. -/
def badCipherTask : PyTask :=
  { hasEncrypted := true, payload := some (.junk "zzz") }

/-- A plain well-formed task, used to exercise `receive_message`. -/
def pingTask : PyTask :=
  { ttype := some "security_scan" }

/-- A sentinel state in which the `lockdown` tag is already active. -/
def lockedState : SentinelState :=
  { initial_sentinel 0 with activeCountermeasures := ["lockdown"] }

/-! ### Bridge lemmas: the computable arithmetic agrees with Mathlib's -/

theorem qAdd_eq_add (a b : ℚ) : qAdd a b = a + b :=
  (Rat.add_def' a b).symm

theorem qMul_eq_mul (a b : ℚ) : qMul a b = a * b := by
  unfold qMul
  rw [Rat.mul_def, Rat.normalize_eq_mkRat]

theorem qSub_eq_sub (a b : ℚ) : qSub a b = a - b := by
  unfold qSub
  rw [qAdd_eq_add]
  ring

theorem ratMin_eq_min (a b : ℚ) : ratMin a b = min a b := by
  unfold ratMin
  rcases le_or_lt a b with h | h
  · rw [if_pos h, min_eq_left h]
  · rw [if_neg (not_le.mpr h), min_eq_right h.le]

theorem ratMax_eq_max (a b : ℚ) : ratMax a b = max a b := by
  unfold ratMax
  rcases le_or_lt a b with h | h
  · rw [if_pos h, max_eq_right h]
  · rw [if_neg (not_le.mpr h), max_eq_left h.le]

/-! ### Projection lemmas for the sentinel operations -/

theorem pushLog_active (st : SentinelState) (m : String) :
    (pushLog st m).activeCountermeasures = st.activeCountermeasures := rfl

theorem pushLog_level (st : SentinelState) (m : String) :
    (pushLog st m).threatLevel = st.threatLevel := rfl

theorem send_results_active (st : SentinelState) (m : String) :
    (send_results st m).activeCountermeasures = st.activeCountermeasures := rfl

theorem adjust_monitoring_active (st : SentinelState) :
    (adjust_monitoring st).activeCountermeasures = st.activeCountermeasures := rfl

theorem adjust_monitoring_level (st : SentinelState) :
    (adjust_monitoring st).threatLevel = st.threatLevel := rfl

theorem enhance_monitoring_active (st : SentinelState) :
    (enhance_monitoring st).activeCountermeasures = st.activeCountermeasures := rfl

theorem update_threat_level_level (st : SentinelState) (d : ℚ) :
    (update_threat_level st d).threatLevel = ratMin 10 (qAdd st.threatLevel d) := by
  simp only [update_threat_level]
  split
  · rfl
  · next h => exact (not_not.mp h).symm

theorem update_threat_level_active (st : SentinelState) (d : ℚ) :
    (update_threat_level st d).activeCountermeasures = st.activeCountermeasures := by
  simp only [update_threat_level]
  split
  · rfl
  · rfl

theorem update_threat_level_changed (st : SentinelState) (d : ℚ)
    (h : ratMin 10 (qAdd st.threatLevel d) ≠ st.threatLevel) :
    update_threat_level st d =
      adjust_monitoring
        (pushLog { st with threatLevel := ratMin 10 (qAdd st.threatLevel d) }
          "Threat level changed") := by
  simp only [update_threat_level]
  rw [if_pos h]

theorem update_threat_level_unchanged (st : SentinelState) (d : ℚ)
    (h : ratMin 10 (qAdd st.threatLevel d) = st.threatLevel) :
    update_threat_level st d = st := by
  simp only [update_threat_level]
  rw [if_neg (not_not_intro h)]

theorem full_system_scan_active (env : ScanEnv) (st : SentinelState) :
    (full_system_scan env st).activeCountermeasures = st.activeCountermeasures := by
  simp only [full_system_scan]
  rw [send_results_active, update_threat_level_active, pushLog_active]

/-! ### The activation loops compute `addMissing` on the active list -/

theorem lockdown_effect_active (st : SentinelState) (m : String) :
    (lockdown_effect st m).activeCountermeasures = st.activeCountermeasures := by
  unfold lockdown_effect
  split_ifs <;> rfl

theorem measure_effect_active (st : SentinelState) (m : String) :
    (measure_effect st m).activeCountermeasures = st.activeCountermeasures := by
  unfold measure_effect
  split_ifs <;> rfl

theorem apply_lockdown_measure_active (st : SentinelState) (m : String) :
    (apply_lockdown_measure st m).activeCountermeasures =
      if m ∈ st.activeCountermeasures then st.activeCountermeasures
      else st.activeCountermeasures ++ [m] := by
  unfold apply_lockdown_measure
  split_ifs with h
  · rfl
  · rw [lockdown_effect_active]

theorem apply_measure_fst_active (p : SentinelState × Bool) (m : String) :
    ((apply_measure p m).1).activeCountermeasures =
      if m ∈ p.1.activeCountermeasures then p.1.activeCountermeasures
      else p.1.activeCountermeasures ++ [m] := by
  unfold apply_measure
  split_ifs with h
  · rfl
  · exact measure_effect_active _ _

theorem foldl_lockdown_active (ms : List String) :
    ∀ st : SentinelState,
      (ms.foldl apply_lockdown_measure st).activeCountermeasures =
        addMissing st.activeCountermeasures ms := by
  induction ms with
  | nil => intro st; rfl
  | cons m ms ih =>
    intro st
    rw [List.foldl_cons, ih, apply_lockdown_measure_active]
    rfl

theorem foldl_measure_active (ms : List String) :
    ∀ p : SentinelState × Bool,
      ((ms.foldl apply_measure p).1).activeCountermeasures =
        addMissing p.1.activeCountermeasures ms := by
  induction ms with
  | nil => intro p; rfl
  | cons m ms ih =>
    intro p
    rw [List.foldl_cons, ih, apply_measure_fst_active]
    rfl

theorem activate_countermeasures_active (st : SentinelState) (ms : List String) :
    (activate_countermeasures st ms).activeCountermeasures =
      addMissing st.activeCountermeasures ms := by
  simp only [activate_countermeasures]
  split
  · rw [pushLog_active, foldl_measure_active]
  · rw [foldl_measure_active]

theorem activate_lockdown_active (st : SentinelState) :
    (activate_lockdown st).activeCountermeasures =
      if "lockdown" ∈ st.activeCountermeasures then st.activeCountermeasures
      else addMissing st.activeCountermeasures lockdownMeasures := by
  unfold activate_lockdown
  split_ifs with h
  · rfl
  · rw [send_results_active, foldl_lockdown_active, pushLog_active]

theorem activate_lockdown_of_mem (st : SentinelState)
    (h : "lockdown" ∈ st.activeCountermeasures) : activate_lockdown st = st := by
  unfold activate_lockdown
  exact if_pos h

/-! ### `addMissing` facts -/

theorem subset_addMissing (ms : List String) :
    ∀ acc : List String, acc ⊆ addMissing acc ms := by
  induction ms with
  | nil => intro acc; exact fun x hx => hx
  | cons m ms ih =>
    intro acc
    refine List.Subset.trans ?_ (ih (if m ∈ acc then acc else acc ++ [m]))
    split_ifs
    · exact fun x hx => hx
    · exact List.subset_append_left _ _

theorem mem_addMissing (x : String) (ms : List String) :
    ∀ acc : List String, x ∈ addMissing acc ms ↔ x ∈ acc ∨ x ∈ ms := by
  induction ms with
  | nil => intro acc; simp [addMissing]
  | cons m ms ih =>
    intro acc
    have step : addMissing acc (m :: ms) =
        addMissing (if m ∈ acc then acc else acc ++ [m]) ms := rfl
    rw [step, ih]
    split_ifs with h
    · constructor
      · rintro (hx | hx)
        · exact Or.inl hx
        · exact Or.inr (List.mem_cons_of_mem _ hx)
      · rintro (hx | hx)
        · exact Or.inl hx
        · rcases List.mem_cons.mp hx with rfl | hx
          · exact Or.inl h
          · exact Or.inr hx
    · constructor
      · rintro (hx | hx)
        · rcases List.mem_append.mp hx with hx | hx
          · exact Or.inl hx
          · exact Or.inr (List.mem_cons.mpr (Or.inl (List.mem_singleton.mp hx)))
        · exact Or.inr (List.mem_cons_of_mem _ hx)
      · rintro (hx | hx)
        · exact Or.inl (List.mem_append.mpr (Or.inl hx))
        · rcases List.mem_cons.mp hx with rfl | hx
          · exact Or.inl (List.mem_append.mpr (Or.inr (List.mem_singleton.mpr rfl)))
          · exact Or.inr hx

theorem addMissing_eq_self (ms : List String) :
    ∀ acc : List String, (∀ m ∈ ms, m ∈ acc) → addMissing acc ms = acc := by
  induction ms with
  | nil => intro acc _; rfl
  | cons m ms ih =>
    intro acc h
    have step : addMissing acc (m :: ms) =
        addMissing (if m ∈ acc then acc else acc ++ [m]) ms := rfl
    rw [step, if_pos (h m (List.mem_cons_self m ms))]
    exact ih acc fun x hx => h x (List.mem_cons_of_mem _ hx)

theorem active_subset_activate_lockdown (st : SentinelState) :
    st.activeCountermeasures ⊆ (activate_lockdown st).activeCountermeasures := by
  rw [activate_lockdown_active]
  split_ifs
  · exact fun x hx => hx
  · exact subset_addMissing _ _

theorem active_subset_activate_countermeasures (st : SentinelState) (ms : List String) :
    st.activeCountermeasures ⊆ (activate_countermeasures st ms).activeCountermeasures := by
  rw [activate_countermeasures_active]
  exact subset_addMissing _ _

/-! ### Monotonicity of the handlers on the active-countermeasure list -/

theorem handle_threat_alert_mono (st st2 : SentinelState) (t : PyTask)
    (h : handle_threat_alert st t = .ok st2) :
    st.activeCountermeasures ⊆ st2.activeCountermeasures := by
  unfold handle_threat_alert at h
  split at h
  · exact absurd h (by simp)
  · split at h
    · exact absurd h (by simp)
    · dsimp only at h
      split_ifs at h
      · cases h
        refine List.Subset.trans ?_ (active_subset_activate_lockdown _)
        rw [update_threat_level_active, pushLog_active]
        exact fun x hx => hx
      · cases h
        refine List.Subset.trans ?_ (active_subset_activate_countermeasures _ _)
        rw [update_threat_level_active, pushLog_active]
        exact fun x hx => hx
      · cases h
        rw [update_threat_level_active, pushLog_active]
        exact fun x hx => hx

theorem handle_suspicious_activity_mono (st : SentinelState)
    (cat desc : String) (sev : ℚ) :
    st.activeCountermeasures ⊆
      (handle_suspicious_activity st cat desc sev).activeCountermeasures := by
  simp only [handle_suspicious_activity]
  rw [send_results_active]
  have hbase :
      (update_threat_level (pushLog st (cat ++ " ALERT: " ++ desc))
          sev).activeCountermeasures = st.activeCountermeasures := by
    rw [update_threat_level_active, pushLog_active]
  split_ifs
  · rw [← hbase]
    exact active_subset_activate_lockdown _
  · rw [← hbase]
    exact active_subset_activate_countermeasures _ _
  · rw [← hbase]
    exact fun x hx => hx

theorem update_whitelist_active (st st2 : SentinelState) (t : PyTask)
    (h : update_whitelist st t = .ok st2) :
    st2.activeCountermeasures = st.activeCountermeasures := by
  unfold update_whitelist at h
  split at h
  · exact absurd h (by simp)
  · cases h
    rfl

theorem decrypt_task_fst_active (st : SentinelState) (t : PyTask) :
    ((decrypt_task st t).1).activeCountermeasures = st.activeCountermeasures := by
  unfold decrypt_task
  split
  · rfl
  · rfl

theorem dispatch_task_mono (env : ScanEnv) (p : SentinelState × PyTask)
    (st2 : SentinelState) (h : dispatch_task env p = .ok st2) :
    p.1.activeCountermeasures ⊆ st2.activeCountermeasures := by
  unfold dispatch_task at h
  split at h
  · split_ifs at h
    · cases h
      rw [full_system_scan_active]
      exact fun x hx => hx
    · exact handle_threat_alert_mono _ _ _ h
    · rw [update_whitelist_active _ _ _ h]
      exact fun x hx => hx
    · cases h
      exact active_subset_activate_lockdown _
    · cases h
      exact fun x hx => hx
  · cases h
    exact fun x hx => hx

theorem process_task_mono (env : ScanEnv) (st st2 : SentinelState) (t : PyTask)
    (h : process_task env st t = .ok st2) :
    st.activeCountermeasures ⊆ st2.activeCountermeasures := by
  unfold process_task at h
  by_cases he : t.hasEncrypted = true
  · rw [if_pos he] at h
    have := dispatch_task_mono env _ _ h
    rw [decrypt_task_fst_active] at this
    exact this
  · rw [if_neg he] at h
    exact dispatch_task_mono env _ _ h

/-! ### Shutdown, receive and the update loop -/

theorem shutdown_active (st : SentinelState) :
    (shutdown st).activeCountermeasures = [] := by
  simp only [shutdown]
  split
  · rfl
  · next h => exact not_not.mp h

theorem shutdown_queue (st : SentinelState) : (shutdown st).queue = st.queue := by
  simp only [shutdown]
  split
  · rfl
  · rfl

theorem shutdown_running (st : SentinelState) : (shutdown st).running = false := by
  simp only [shutdown]
  split
  · rfl
  · rfl

theorem foldl_receive_queue (ms : List PyTask) :
    ∀ st : SentinelState, (ms.foldl receive_message st).queue = st.queue ++ ms := by
  induction ms with
  | nil => intro st; exact (List.append_nil _).symm
  | cons m ms ih =>
    intro st
    rw [List.foldl_cons, ih]
    show st.queue ++ [m] ++ ms = st.queue ++ m :: ms
    rw [List.append_assoc]
    rfl

theorem foldl_receive_running (ms : List PyTask) :
    ∀ st : SentinelState, (ms.foldl receive_message st).running = st.running := by
  induction ms with
  | nil => intro st; rfl
  | cons m ms ih =>
    intro st
    rw [List.foldl_cons, ih]
    rfl

theorem initial_level (key : Nat) : (initial_sentinel key).threatLevel = 0 := rfl

theorem run_updates_bounds (ds : List ℚ) :
    ∀ st : SentinelState, 0 ≤ st.threatLevel → st.threatLevel ≤ 10 →
      (∀ d ∈ ds, 0 ≤ d) →
      0 ≤ (run_updates st ds).threatLevel ∧ (run_updates st ds).threatLevel ≤ 10 := by
  induction ds with
  | nil => intro st h0 h10 _; exact ⟨h0, h10⟩
  | cons d ds ih =>
    intro st h0 h10 hds
    have hd : 0 ≤ d := hds d (List.mem_cons_self d ds)
    have hstep : (update_threat_level st d).threatLevel =
        ratMin 10 (qAdd st.threatLevel d) := update_threat_level_level st d
    have hlow : 0 ≤ (update_threat_level st d).threatLevel := by
      rw [hstep, ratMin_eq_min, qAdd_eq_add]
      exact le_min (by norm_num) (add_nonneg h0 hd)
    have hhigh : (update_threat_level st d).threatLevel ≤ 10 := by
      rw [hstep, ratMin_eq_min]
      exact min_le_left _ _
    exact ih (update_threat_level st d) hlow hhigh
      fun x hx => hds x (List.mem_cons_of_mem _ hx)

/-! ### Claim C1 -/

/-- Claim C1, counterexample. The claim states that the level is clamped to
`[0, 10]` and that `update(-100)` from level 10 leaves the level at 0. On
the code, `_update_threat_level` has no lower clamp: after `update(10)` and
then `update(-100)` from the initial state the level is -90, outside
`[0, 10]`. -/
theorem clamp_claim_fails_on_negative_delta :
    (update_threat_level (update_threat_level (initial_sentinel 0) 10)
        (-100)).threatLevel = -90 ∧
      ¬ (0 ≤ (update_threat_level (update_threat_level (initial_sentinel 0) 10)
          (-100)).threatLevel) := by
  decide

/-- Claim C1, amended. `_update_threat_level` computes
`level = min(10, level + delta)` -- an upper clamp only; consequently, for
every sequence of NONNEGATIVE deltas starting from the initial level 0 the
level stays in `[0, 10]` after every call, while a negative delta can push
it below 0 (`update(-100)` from level 10 leaves it at -90, not 0). -/
theorem update_is_upper_clamp_only :
    (∀ (st : SentinelState) (d : ℚ),
        (update_threat_level st d).threatLevel = ratMin 10 (qAdd st.threatLevel d)) ∧
    (∀ (key : Nat) (ds : List ℚ), (∀ d ∈ ds, 0 ≤ d) →
        0 ≤ (run_updates (initial_sentinel key) ds).threatLevel ∧
          (run_updates (initial_sentinel key) ds).threatLevel ≤ 10) ∧
    (update_threat_level (update_threat_level (initial_sentinel 0) 10)
        (-100)).threatLevel = -90 := by
  refine ⟨update_threat_level_level, fun key ds hds => ?_, by decide⟩
  exact run_updates_bounds ds (initial_sentinel key)
    (by norm_num [initial_level]) (by norm_num [initial_level]) hds

/-- Claim C1, witness: a concrete run of nonnegative updates stays in
bounds. -/
theorem update_is_upper_clamp_only_instance :
    0 ≤ (run_updates (initial_sentinel 0) [3, 12]).threatLevel ∧
      (run_updates (initial_sentinel 0) [3, 12]).threatLevel ≤ 10 :=
  update_is_upper_clamp_only.2.1 0 [3, 12] (by decide)

/-! ### Claim C4 -/

/-- Claim C4. On the Crypto Codec, `decrypt(encrypt(x)) = x` for every
string `x` (hence in particular for every string up to any maximum payload
size), and decrypting a malformed ciphertext, or one produced under a
different key, fails with the decryption error rather than returning a
value. The Fernet primitive itself is modelled from the spec (section 4.1),
it is not repository code. -/
theorem crypto_roundtrip_and_failure :
    (∀ (c : MilitaryCrypto) (x : String), c.decrypt (c.encrypt x) = .ok x) ∧
    (∀ (c : MilitaryCrypto) (raw : String),
        c.decrypt (.junk raw) = .error .decryptionError) ∧
    (∀ (c c2 : MilitaryCrypto) (x : String), c.key ≠ c2.key →
        c2.decrypt (c.encrypt x) = .error .decryptionError) := by
  refine ⟨fun c x => ?_, fun c raw => rfl, fun c c2 x h => ?_⟩
  · simp [MilitaryCrypto.decrypt, MilitaryCrypto.encrypt, fernet_decrypt, fernet_encrypt]
  · simp [MilitaryCrypto.decrypt, MilitaryCrypto.encrypt, fernet_decrypt, fernet_encrypt, h]

/-- Claim C4, witness: decrypting a ciphertext of key 1 under key 2
fails. -/
theorem crypto_roundtrip_and_failure_instance :
    MilitaryCrypto.decrypt { key := 2 }
        (MilitaryCrypto.encrypt { key := 1 } "ping") = .error .decryptionError :=
  crypto_roundtrip_and_failure.2.2 { key := 1 } { key := 2 } "ping" (by decide)

/-! ### Claim C6 -/

/-- Claim C6, counterexample. The claim states that after shutdown,
`receive` fails with `RuntimeStoppedError` and no further receive succeeds.
On the code, `receive_message` performs no check of the running flag and
defines no such error: after `shutdown`, receiving still enqueues the
message. -/
theorem receive_after_shutdown_still_succeeds :
    (receive_message (shutdown (initial_sentinel 0)) pingTask).queue ≠
        (shutdown (initial_sentinel 0)).queue ∧
      (receive_message (shutdown (initial_sentinel 0)) pingTask).queue =
        (shutdown (initial_sentinel 0)).queue ++ [pingTask] ∧
      (shutdown (initial_sentinel 0)).running = false := by
  decide

/-- Claim C6, amended. `receive_message` always succeeds and enqueues, in
FIFO order, whether or not the runtime has been shut down: there is no
running-flag check and no `RuntimeStoppedError` in the source, so after
`shutdown` (which does clear the running flag) every further receive still
appends to the queue. -/
theorem receive_always_enqueues :
    (∀ (st : SentinelState) (ms : List PyTask),
        (ms.foldl receive_message st).queue = st.queue ++ ms) ∧
    (∀ (st : SentinelState) (ms : List PyTask),
        (ms.foldl receive_message (shutdown st)).queue = st.queue ++ ms ∧
          (ms.foldl receive_message (shutdown st)).running = false) := by
  refine ⟨fun st ms => foldl_receive_queue ms st, fun st ms => ⟨?_, ?_⟩⟩
  · rw [foldl_receive_queue, shutdown_queue]
  · rw [foldl_receive_running, shutdown_running]

/-! ### Claim C7 -/

/-- Claim C7. `register_agent` fails with the security error exactly when
the structural capability probe misses one of the three required
capabilities; registering a runtime that exposes all three succeeds, and the
registered runtime is afterwards retrievable by its identifier via
`get_agent`. -/
theorem register_requires_capabilities :
    (∀ (reg : Registry) (aid : String) (a : AgentCaps),
        ¬(a.hasCrypto = true ∧ a.hasSecureComms = true ∧ a.hasThreatMonitor = true) →
          register_agent reg aid a = .error .securityError) ∧
    (∀ (reg : Registry) (aid : String) (a : AgentCaps),
        a.hasCrypto = true → a.hasSecureComms = true → a.hasThreatMonitor = true →
          register_agent reg aid a = .ok ((aid, a) :: reg) ∧
            get_agent ((aid, a) :: reg) aid = .ok a) := by
  constructor
  · intro reg aid a h
    unfold register_agent
    rw [if_neg]
    intro hv
    rw [validate_agent_security, Bool.and_eq_true, Bool.and_eq_true] at hv
    exact h ⟨hv.1.1, hv.1.2, hv.2⟩
  · intro reg aid a h1 h2 h3
    have hv : validate_agent_security a = true := by
      simp [validate_agent_security, h1, h2, h3]
    constructor
    · unfold register_agent
      rw [if_pos hv]
    · unfold get_agent
      rw [List.find?_cons_of_pos _ (by simp)]

/-- Claim C7, witness: a probe missing `secure_comms` is rejected, the full
capability set is admitted and retrievable. -/
theorem register_requires_capabilities_instance :
    register_agent [] "sentinel"
        { hasCrypto := true, hasSecureComms := false, hasThreatMonitor := true } =
      .error .securityError ∧
    (register_agent [] "sentinel"
          { hasCrypto := true, hasSecureComms := true, hasThreatMonitor := true } =
        .ok [("sentinel",
          { hasCrypto := true, hasSecureComms := true, hasThreatMonitor := true })] ∧
      get_agent [("sentinel",
          { hasCrypto := true, hasSecureComms := true, hasThreatMonitor := true })]
          "sentinel" =
        .ok { hasCrypto := true, hasSecureComms := true, hasThreatMonitor := true }) :=
  ⟨register_requires_capabilities.1 [] "sentinel"
      { hasCrypto := true, hasSecureComms := false, hasThreatMonitor := true } (by decide),
    register_requires_capabilities.2 [] "sentinel"
      { hasCrypto := true, hasSecureComms := true, hasThreatMonitor := true } rfl rfl rfl⟩

/-! ### Claim C10 -/

/-- Claim C10. For every sender, receiver and message, `secure_comms` raises
`NameError` on the name `json`, which src/core/crypto.py never imports, so
it never returns the record it is written to build; the other codec
operations do not touch that name and are unaffected: `encrypt`/`decrypt`
still round-trip, `decrypt` can only fail with the decryption error, and
`hash_data` succeeds. -/
theorem secure_comms_name_error :
    (∀ (c : MilitaryCrypto) (sender receiver message : String),
        c.secure_comms sender receiver message = .error (.nameError "json")) ∧
    (∀ (c : MilitaryCrypto) (x : String), c.decrypt (c.encrypt x) = .ok x) ∧
    (∀ (c : MilitaryCrypto) (k : Nat) (s : String),
        c.decrypt (.token k s) = .ok s ∨
          c.decrypt (.token k s) = .error .decryptionError) ∧
    (∀ (c : MilitaryCrypto) (raw : String),
        c.decrypt (.junk raw) = .error .decryptionError) ∧
    (∀ (c : MilitaryCrypto) (d : String), (c.hash_data d).isOk = true) := by
  refine ⟨fun c s r m => rfl, fun c x => ?_, fun c k s => ?_, fun c raw => rfl,
    fun c d => rfl⟩
  · simp [MilitaryCrypto.decrypt, MilitaryCrypto.encrypt, fernet_decrypt, fernet_encrypt]
  · by_cases hk : k = c.key
    · exact Or.inl (by simp [MilitaryCrypto.decrypt, fernet_decrypt, hk])
    · exact Or.inr (by simp [MilitaryCrypto.decrypt, fernet_decrypt, hk])

/-! ### Claim C2 -/

/-- Claim C2, counterexample. The claim's threshold policy says a resulting
level of 7 (which is `≥ 4` and `< 8`) activates exactly the reduced set
`enhanced_monitoring`/`process_restrictions`. On the code, a threat alert of
severity 7 from the initial state yields level 7 and `_handle_threat_alert`
activates the full lockdown set (its threshold is `level ≥ 7`), so the
reduced set of the claim is not what gets activated. -/
theorem threshold_policy_claim_fails_at_level_seven :
    (handle_threat_alert (initial_sentinel 0) (alertTask "sim" 7)).map
        SentinelState.activeCountermeasures ≠
      .ok ["enhanced_monitoring", "process_restrictions"] ∧
    (handle_threat_alert (initial_sentinel 0) (alertTask "sim" 7)).map
        SentinelState.activeCountermeasures = .ok lockdownMeasures ∧
    (handle_threat_alert (initial_sentinel 0) (alertTask "sim" 7)).map
        SentinelState.threatLevel = .ok 7 := by
  decide

/-- Claim C2, amended. The threshold policy is applied by the two handlers,
not by `_update_threat_level` itself (which never changes the active set).
`_handle_threat_alert` applies it to the RESULTING level with thresholds 7
and 4 and the reduced set `isolate_network`/`suspend_non_critical`;
`_handle_suspicious_activity` applies it to the SEVERITY argument (not the
level) with thresholds 8 and 5 and the reduced set
`enhanced_monitoring`/`process_restrictions`. A threat alert of severity +12
from level 0 sets the level to 10 (clamped) and activates the lockdown
measure set exactly once: repeating it leaves the active set unchanged. -/
theorem threshold_policy_as_implemented :
    (∀ (st : SentinelState) (d : ℚ),
        (update_threat_level st d).activeCountermeasures = st.activeCountermeasures) ∧
    (∀ (st : SentinelState) (desc : String) (s : ℤ),
        st.activeCountermeasures = [] →
        (7 ≤ ratMin 10 (qAdd st.threatLevel (s : ℚ)) →
            (handle_threat_alert st (alertTask desc s)).map
                SentinelState.activeCountermeasures = .ok lockdownMeasures) ∧
        (4 ≤ ratMin 10 (qAdd st.threatLevel (s : ℚ)) →
            ratMin 10 (qAdd st.threatLevel (s : ℚ)) < 7 →
            (handle_threat_alert st (alertTask desc s)).map
                SentinelState.activeCountermeasures =
              .ok ["isolate_network", "suspend_non_critical"]) ∧
        (ratMin 10 (qAdd st.threatLevel (s : ℚ)) < 4 →
            (handle_threat_alert st (alertTask desc s)).map
                SentinelState.activeCountermeasures = .ok [])) ∧
    (∀ (st : SentinelState) (cat desc : String) (sev : ℚ),
        st.activeCountermeasures = [] →
        (8 ≤ sev →
            (handle_suspicious_activity st cat desc sev).activeCountermeasures =
              lockdownMeasures) ∧
        (5 ≤ sev → sev < 8 →
            (handle_suspicious_activity st cat desc sev).activeCountermeasures =
              ["enhanced_monitoring", "process_restrictions"]) ∧
        (sev < 5 →
            (handle_suspicious_activity st cat desc sev).activeCountermeasures = [])) ∧
    ((handle_threat_alert (initial_sentinel 0) (alertTask "sim" 12)).map
        (fun r => (r.threatLevel, r.activeCountermeasures)) =
      .ok (10, lockdownMeasures)) ∧
    (((handle_threat_alert (initial_sentinel 0) (alertTask "sim" 12)).bind
        (fun r => handle_threat_alert r (alertTask "sim" 12))).map
        SentinelState.activeCountermeasures = .ok lockdownMeasures) := by
  refine ⟨update_threat_level_active, ?_, ?_, by decide, by decide⟩
  · intro st desc s h
    have hred : handle_threat_alert st (alertTask desc s) =
        (if 7 ≤ (update_threat_level
              (pushLog st ("Processing threat alert: " ++ desc)) (s : ℚ)).threatLevel
          then Except.ok (activate_lockdown (update_threat_level
            (pushLog st ("Processing threat alert: " ++ desc)) (s : ℚ)))
          else if 4 ≤ (update_threat_level
              (pushLog st ("Processing threat alert: " ++ desc)) (s : ℚ)).threatLevel
          then Except.ok (activate_countermeasures (update_threat_level
            (pushLog st ("Processing threat alert: " ++ desc)) (s : ℚ))
            ["isolate_network", "suspend_non_critical"])
          else Except.ok (update_threat_level
            (pushLog st ("Processing threat alert: " ++ desc)) (s : ℚ))) := rfl
    have hlvl : (update_threat_level
        (pushLog st ("Processing threat alert: " ++ desc)) (s : ℚ)).threatLevel =
        ratMin 10 (qAdd st.threatLevel (s : ℚ)) := by
      rw [update_threat_level_level, pushLog_level]
    have hact : (update_threat_level
        (pushLog st ("Processing threat alert: " ++ desc)) (s : ℚ)).activeCountermeasures =
        ([] : List String) := by
      rw [update_threat_level_active, pushLog_active]
      exact h
    refine ⟨fun h7 => ?_, fun h4 h7 => ?_, fun h4 => ?_⟩
    · rw [hred, if_pos (by rw [hlvl]; exact h7)]
      simp only [Except.map, Except.ok.injEq]
      rw [activate_lockdown_active, hact, if_neg (List.not_mem_nil _)]
      decide
    · rw [hred, if_neg (by rw [hlvl]; exact not_le.mpr h7),
        if_pos (by rw [hlvl]; exact h4)]
      simp only [Except.map, Except.ok.injEq]
      rw [activate_countermeasures_active, hact]
      decide
    · rw [hred, if_neg (by rw [hlvl]; exact not_le.mpr (lt_trans h4 (by norm_num))),
        if_neg (by rw [hlvl]; exact not_le.mpr h4)]
      simp only [Except.map, Except.ok.injEq]
      exact hact
  · intro st cat desc sev h
    have hred : handle_suspicious_activity st cat desc sev =
        send_results
          (if 8 ≤ sev
            then activate_lockdown
              (update_threat_level (pushLog st (cat ++ " ALERT: " ++ desc)) sev)
            else if 5 ≤ sev
            then activate_countermeasures
              (update_threat_level (pushLog st (cat ++ " ALERT: " ++ desc)) sev)
              ["enhanced_monitoring", "process_restrictions"]
            else update_threat_level (pushLog st (cat ++ " ALERT: " ++ desc)) sev)
          "security_alert" := rfl
    have hact : (update_threat_level
        (pushLog st (cat ++ " ALERT: " ++ desc)) sev).activeCountermeasures =
        ([] : List String) := by
      rw [update_threat_level_active, pushLog_active]
      exact h
    refine ⟨fun h8 => ?_, fun h5 h8 => ?_, fun h5 => ?_⟩
    · rw [hred, if_pos h8, send_results_active, activate_lockdown_active, hact,
        if_neg (List.not_mem_nil _)]
      decide
    · rw [hred, if_neg (not_le.mpr h8), if_pos h5, send_results_active,
        activate_countermeasures_active, hact]
      decide
    · rw [hred, if_neg (not_le.mpr (lt_trans h5 (by norm_num))),
        if_neg (not_le.mpr h5), send_results_active]
      exact hact

/-- Claim C2, witness: the threat-alert branch of the amended policy at the
concrete scenario severity +12 from level 0. -/
theorem threshold_policy_as_implemented_instance :
    (handle_threat_alert (initial_sentinel 0) (alertTask "sim" 12)).map
        SentinelState.activeCountermeasures = .ok lockdownMeasures :=
  (threshold_policy_as_implemented.2.1 (initial_sentinel 0) "sim" 12 rfl).1 (by decide)

/-! ### Claim C3 -/

/-- Claim C3, counterexample. The claim's interval formula
`max(1, base * max(0.1, 1 - level*0.05))` has no integer truncation: at
level 1 it gives 4.75 for the network category (base 5), while the code
stores `max(1, int(5 * 0.95)) = 4`. -/
theorem interval_formula_claim_fails_at_level_one :
    ((update_threat_level (initial_sentinel 0) 1).monitoringIntervals.network : ℚ) ≠
        specIntervalFormula 5 1 ∧
      (update_threat_level (initial_sentinel 0) 1).monitoringIntervals.network = 4 ∧
      specIntervalFormula 5 1 = mkRat 19 4 := by
  decide

set_option maxHeartbeats 1600000 in
/-- Claim C3, amended. Whenever `update(delta)` changes the threat level,
the engine recomputes every monitoring interval as
`max(1, int(base * max(0.1, 1 - level*0.05)))` -- with Python's integer
truncation, which the claim's formula omits -- clears the job table, and
re-registers exactly one job per category at the new interval; when the
clamped level is unchanged, the intervals and the scheduled jobs are left as
they were. -/
theorem monitoring_reconfiguration_as_implemented :
    ∀ (st : SentinelState) (d : ℚ),
      (ratMin 10 (qAdd st.threatLevel d) ≠ st.threatLevel →
        (update_threat_level st d).monitoringIntervals =
          { network := implIntervalFormula 5 (ratMin 10 (qAdd st.threatLevel d)),
            process := implIntervalFormula 10 (ratMin 10 (qAdd st.threatLevel d)),
            performance := implIntervalFormula 15 (ratMin 10 (qAdd st.threatLevel d)),
            integrity := implIntervalFormula 30 (ratMin 10 (qAdd st.threatLevel d)) } ∧
        (update_threat_level st d).jobs =
          [ { category := .network,
              interval := implIntervalFormula 5 (ratMin 10 (qAdd st.threatLevel d)) },
            { category := .process,
              interval := implIntervalFormula 10 (ratMin 10 (qAdd st.threatLevel d)) },
            { category := .performance,
              interval := implIntervalFormula 15 (ratMin 10 (qAdd st.threatLevel d)) },
            { category := .integrity,
              interval := implIntervalFormula 30 (ratMin 10 (qAdd st.threatLevel d)) } ]) ∧
      (ratMin 10 (qAdd st.threatLevel d) = st.threatLevel →
        (update_threat_level st d).monitoringIntervals = st.monitoringIntervals ∧
        (update_threat_level st d).jobs = st.jobs) := by
  intro st d
  constructor
  · intro h
    rw [update_threat_level_changed st d h]
    exact ⟨rfl, rfl⟩
  · intro h
    rw [update_threat_level_unchanged st d h]
    exact ⟨rfl, rfl⟩

/-- Claim C3, witness: the reconfiguration at the concrete change from
level 0 to level 1, and the no-change case at delta 0. -/
theorem monitoring_reconfiguration_as_implemented_instance :
    ((update_threat_level (initial_sentinel 0) 1).monitoringIntervals =
        { network := implIntervalFormula 5
            (ratMin 10 (qAdd (initial_sentinel 0).threatLevel 1)),
          process := implIntervalFormula 10
            (ratMin 10 (qAdd (initial_sentinel 0).threatLevel 1)),
          performance := implIntervalFormula 15
            (ratMin 10 (qAdd (initial_sentinel 0).threatLevel 1)),
          integrity := implIntervalFormula 30
            (ratMin 10 (qAdd (initial_sentinel 0).threatLevel 1)) } ∧
      (update_threat_level (initial_sentinel 0) 1).jobs =
        [ { category := .network,
            interval := implIntervalFormula 5
              (ratMin 10 (qAdd (initial_sentinel 0).threatLevel 1)) },
          { category := .process,
            interval := implIntervalFormula 10
              (ratMin 10 (qAdd (initial_sentinel 0).threatLevel 1)) },
          { category := .performance,
            interval := implIntervalFormula 15
              (ratMin 10 (qAdd (initial_sentinel 0).threatLevel 1)) },
          { category := .integrity,
            interval := implIntervalFormula 30
              (ratMin 10 (qAdd (initial_sentinel 0).threatLevel 1)) } ]) ∧
    ((update_threat_level (initial_sentinel 0) 0).monitoringIntervals =
        (initial_sentinel 0).monitoringIntervals ∧
      (update_threat_level (initial_sentinel 0) 0).jobs = (initial_sentinel 0).jobs) :=
  ⟨(monitoring_reconfiguration_as_implemented (initial_sentinel 0) 1).1 (by decide),
    (monitoring_reconfiguration_as_implemented (initial_sentinel 0) 0).2 (by decide)⟩

/-! ### Claim C5 -/

/-- Claim C5. When decryption of an inbound encrypted task fails in the
dispatch of the worker, the failure is logged, the
`{'error': 'decryption_failed'}` marker task is synthesized in its place,
the marker then falls through dispatch as an unknown type (logged and
dropped), processing returns normally -- the failure is never thrown to the
producer that called receive -- and the run loop continues with the next
queued item. -/
theorem decrypt_failure_contained :
    ∀ (env : ScanEnv) (st : SentinelState) (t : PyTask) (ts : List PyTask)
      (e : PyError), t.hasEncrypted = true →
      decrypt_task_raw st.cryptoKey t = .error e →
      decrypt_task st t = (pushLog st "Decryption failed", decryptionFailedMarker) ∧
      process_task env st t =
        .ok (pushLog (pushLog st "Decryption failed") "Unknown task type") ∧
      run_tasks env st (t :: ts) =
        run_tasks env (pushLog (pushLog st "Decryption failed") "Unknown task type") ts := by
  intro env st t ts e henc hfail
  have h1 : decrypt_task st t =
      (pushLog st "Decryption failed", decryptionFailedMarker) := by
    unfold decrypt_task
    rw [hfail]
  have h2 : process_task env st t =
      .ok (pushLog (pushLog st "Decryption failed") "Unknown task type") := by
    unfold process_task
    rw [if_pos henc, h1]
    rfl
  have h3 : run_tasks env st (t :: ts) =
      run_tasks env (pushLog (pushLog st "Decryption failed") "Unknown task type") ts := by
    simp only [run_tasks]
    rw [h2]
  exact ⟨h1, h2, h3⟩

/-- Claim C5, witness: a concrete malformed encrypted payload is contained
by the dispatch. -/
theorem decrypt_failure_contained_instance :
    decrypt_task (initial_sentinel 0) badCipherTask =
        (pushLog (initial_sentinel 0) "Decryption failed", decryptionFailedMarker) ∧
      process_task env0 (initial_sentinel 0) badCipherTask =
        .ok (pushLog (pushLog (initial_sentinel 0) "Decryption failed")
          "Unknown task type") ∧
      run_tasks env0 (initial_sentinel 0) [badCipherTask] =
        run_tasks env0
          (pushLog (pushLog (initial_sentinel 0) "Decryption failed")
            "Unknown task type") [] :=
  decrypt_failure_contained env0 (initial_sentinel 0) badCipherTask []
    .decryptionError rfl rfl

/-! ### Claim C8 -/

/-- Claim C8. The active-countermeasure list only grows monotonically:
`_update_threat_level` never touches it at all (so in particular
`update(-100)` from level 10 leaves the active set unchanged), every task
processed by the worker and every suspicious-activity handler only extends
it, and the set is reset (to empty) only by an explicit `shutdown`. -/
theorem countermeasures_monotone :
    (∀ (st : SentinelState) (d : ℚ),
        (update_threat_level st d).activeCountermeasures = st.activeCountermeasures) ∧
    (∀ (env : ScanEnv) (st st2 : SentinelState) (t : PyTask),
        process_task env st t = .ok st2 →
          st.activeCountermeasures ⊆ st2.activeCountermeasures) ∧
    (∀ (st : SentinelState) (cat desc : String) (sev : ℚ),
        st.activeCountermeasures ⊆
          (handle_suspicious_activity st cat desc sev).activeCountermeasures) ∧
    (∀ st : SentinelState, (shutdown st).activeCountermeasures = []) ∧
    ((update_threat_level (update_threat_level (initial_sentinel 0) 10)
          (-100)).activeCountermeasures =
      (update_threat_level (initial_sentinel 0) 10).activeCountermeasures) :=
  ⟨update_threat_level_active,
    fun env st st2 t h => process_task_mono env st st2 t h,
    handle_suspicious_activity_mono,
    shutdown_active,
    update_threat_level_active _ _⟩

/-- Claim C8, witness: a concrete processed task (unknown type) keeps the
active set a subset of itself. -/
theorem countermeasures_monotone_instance :
    (initial_sentinel 0).activeCountermeasures ⊆
      (pushLog (initial_sentinel 0) "Unknown task type").activeCountermeasures :=
  countermeasures_monotone.2.1 env0 (initial_sentinel 0)
    (pushLog (initial_sentinel 0) "Unknown task type") {} rfl

/-! ### Claim C9 -/

/-- Claim C9. Lockdown activation is idempotent: when the `lockdown` tag is
already active, re-invoking `_activate_lockdown` is a full no-op; each
individual measure is added to the active list idempotently (activating an
already-active measure leaves the list unchanged, in both activation
loops); and invoking lockdown activation twice in a row yields exactly the
same active-countermeasure set as invoking it once. -/
theorem lockdown_idempotent :
    (∀ st : SentinelState,
        "lockdown" ∈ st.activeCountermeasures → activate_lockdown st = st) ∧
    (∀ (st : SentinelState) (m : String), m ∈ st.activeCountermeasures →
        (apply_lockdown_measure st m).activeCountermeasures =
            st.activeCountermeasures ∧
          ((apply_measure (st, false) m).1).activeCountermeasures =
            st.activeCountermeasures) ∧
    (∀ st : SentinelState,
        (activate_lockdown (activate_lockdown st)).activeCountermeasures =
          (activate_lockdown st).activeCountermeasures) := by
  refine ⟨activate_lockdown_of_mem, fun st m h => ⟨?_, ?_⟩, fun st => ?_⟩
  · rw [apply_lockdown_measure_active, if_pos h]
  · rw [apply_measure_fst_active, if_pos h]
  · by_cases h : "lockdown" ∈ st.activeCountermeasures
    · rw [activate_lockdown_of_mem st h, activate_lockdown_of_mem st h]
    · have h1 : (activate_lockdown st).activeCountermeasures =
          addMissing st.activeCountermeasures lockdownMeasures := by
        rw [activate_lockdown_active, if_neg h]
      have h2 : "lockdown" ∉ (activate_lockdown st).activeCountermeasures := by
        rw [h1, mem_addMissing]
        rintro (hx | hx)
        · exact h hx
        · exact absurd hx (by decide)
      rw [activate_lockdown_active (activate_lockdown st), if_neg h2, h1]
      refine addMissing_eq_self _ _ ?_
      intro m hm
      exact (mem_addMissing m lockdownMeasures st.activeCountermeasures).mpr (Or.inr hm)

/-- Claim C9, witness: on a state with `lockdown` already active,
re-invoking lockdown activation is a no-op. -/
theorem lockdown_idempotent_instance :
    activate_lockdown lockedState = lockedState :=
  lockdown_idempotent.1 lockedState (by decide)

end AiMkt
